import Mathlib

/-!
Pmod HB3 mailbox firmware (`pmod_hb3.c`)

A shallow embedding of the IOP firmware in `Pmod_HB3_C_driver/pmod_hb3/src/pmod_hb3.c`:
the startup sequence of `main`, `setup_timers`, and the body of the mailbox
polling loop with its `switch (cmd)`.

Registers are 32-bit words stored as natural numbers.  The only operations of
the firmware that can leave the 32-bit range are the three multiplications of
`case GENERATE`; they are reduced modulo `2 ^ 32` explicitly.  The state records
the value last written to each register; changes made by the hardware itself
(running counters, status bits) are outside the model.

The store `iop_pins[pwm_pin] = PWM` of `case CONFIG_IOP_SWITCH` is not guarded in the
source.  For an index above 7 the byte lands outside the eight-entry array: the array
keeps its eight entries and execution goes on to the next line.  What the stray byte
overwrites is outside the model.
-/

namespace PmodHB3

/-! ## Constants of `pmod_hb3.c` -/

/-- Mailbox command `CONFIG_IOP_SWITCH` (line 64). -/
def CONFIG_IOP_SWITCH : Nat := 0x1
/-- Mailbox command `GENERATE` (line 65). -/
def GENERATE : Nat := 0x3
/-- Mailbox command `STOP` (line 66). -/
def STOP : Nat := 0x5
/-- Mailbox command `READ` (line 70). -/
def READ : Nat := 0x9
/-- Mailbox command `WRITE` (line 71). -/
def WRITE : Nat := 0x7

/-- Timer 0 control and status register offset (line 80). -/
def TCSR0 : Nat := 0x00
/-- Timer 0 load register offset (line 82). -/
def TLR0 : Nat := 0x04
/-- Timer 1 control and status register offset (line 86). -/
def TCSR1 : Nat := 0x10
/-- Timer 1 load register offset (line 88). -/
def TLR1 : Nat := 0x14
/-- Default load value of timer 0 (line 92). -/
def MS1_VALUE : Nat := 99998
/-- Default load value of timer 1 (line 94). -/
def MS2_VALUE : Nat := 49998
/-- The GPIO channel used for the HB3 lines (line 96). -/
def HB3_CHANNEL : Nat := 1

/-- Reduction of an arithmetic result to a `u32`. -/
def wrap32 (n : Nat) : Nat := n % 2 ^ 32

/-! ## External collaborators (headers `pmod.h`, `xtmrctr_l.h`, `xgpio.h`, `xstatus.h`) -/

/-- Modelled from the spec: the logical pin roles named by the firmware, declared in
`pmod.h` (not part of the sources).  They are kept symbolic: eight plain GPIO roles and
the PWM role, pairwise distinct. -/
inductive Role where
  | GPIO_0 | GPIO_1 | GPIO_2 | GPIO_3 | GPIO_4 | GPIO_5 | GPIO_6 | GPIO_7
  | PWM
  deriving DecidableEq, Repr

open Role

/-- Modelled from the spec: the pin-switch primitive `config_pmod_switch` of `pmod.h`,
binding the eight physical pins, in order, to the eight roles it is given.  The result
is the new pin-switch assignment (entry `i` is the role of pin `i`). -/
def config_pmod_switch (pin0 pin1 pin2 pin3 pin4 pin5 pin6 pin7 : Role) : List Role :=
  [pin0, pin1, pin2, pin3, pin4, pin5, pin6, pin7]

/-- The plain GPIO roles: every role of the firmware other than `PWM`. -/
def Role.isGPIO : Role → Bool
  | PWM => false
  | _ => true

/-- The registers of the AXI timer pair written by the firmware: control-status and
load register of timer 0 and of timer 1. -/
structure TmrCtr where
  tcsr0 : Nat
  tlr0 : Nat
  tcsr1 : Nat
  tlr1 : Nat
  deriving DecidableEq, Repr

/-- Modelled from the spec: the table `XTmrCtr_Offsets` of `xtmrctr_l.h`, the byte offset
of the register block of each of the two timers. -/
def XTmrCtr_Offsets (TmrCtrNumber : Nat) : Nat :=
  if TmrCtrNumber = 0 then 0 else 0x10

/-- Modelled from the spec: the register-write primitive `XTmrCtr_WriteReg` of
`xtmrctr_l.h`.  It writes `Value` verbatim to the register at byte offset
`XTmrCtr_Offsets TmrCtrNumber + RegOffset` of the timer device. -/
def XTmrCtr_WriteReg (t : TmrCtr) (TmrCtrNumber RegOffset Value : Nat) : TmrCtr :=
  let addr := XTmrCtr_Offsets TmrCtrNumber + RegOffset
  if addr = TCSR0 then { t with tcsr0 := Value }
  else if addr = TLR0 then { t with tlr0 := Value }
  else if addr = TCSR1 then { t with tcsr1 := Value }
  else if addr = TLR1 then { t with tlr1 := Value }
  else t

/-- The registers of the GPIO device `hb3_if`, per channel: the data-direction mask
and the discrete value register. -/
structure XGpio where
  tri : Nat → Nat
  data : Nat → Nat

/-- Modelled from the spec: `XGpio_SetDataDirection` of `xgpio.h` sets the
data-direction mask of a channel. -/
def XGpio_SetDataDirection (g : XGpio) (Channel DirectionMask : Nat) : XGpio :=
  { g with tri := Function.update g.tri Channel DirectionMask }

/-- Modelled from the spec: `XGpio_GetDataDirection` of `xgpio.h` returns the
data-direction mask of a channel. -/
def XGpio_GetDataDirection (g : XGpio) (Channel : Nat) : Nat :=
  g.tri Channel

/-- Modelled from the spec: `XGpio_DiscreteWrite` of `xgpio.h` writes the discrete
value register of a channel. -/
def XGpio_DiscreteWrite (g : XGpio) (Channel Data : Nat) : XGpio :=
  { g with data := Function.update g.data Channel Data }

/-- Modelled from the spec: the success status of `xstatus.h`. -/
def XST_SUCCESS : Int := 0
/-- Modelled from the spec: the failure status of `xstatus.h`. -/
def XST_FAILURE : Int := 1

/-! ## Machine state -/

/-- The mailbox shared with the host and the peripherals driven by the firmware. -/
structure State where
  /-- The mailbox command word `MAILBOX_CMD_ADDR`. -/
  MAILBOX_CMD_ADDR : Nat
  /-- The mailbox parameter slots `MAILBOX_DATA(i)`. -/
  MAILBOX_DATA : Nat → Nat
  /-- The pin-switch assignment last applied by `config_pmod_switch`. -/
  pmod_switch : List Role
  /-- The timer pair at `XPAR_TMRCTR_0_BASEADDR`. -/
  tmr : TmrCtr
  /-- The GPIO device `hb3_if`. -/
  hb3_if : XGpio

/-- The ways a dispatch could end without a next state.  The firmware has none: no case
of the switch returns, checks a bound or leaves the loop, so this type has no inhabitant
and every result of `main_dispatch` and `main_poll` is `.ok`. -/
inductive Fault : Type

/-! ## `setup_timers` (lines 108-122) -/

/-- The function `setup_timers`: load both load registers with the defaults, then write
`0x296` to both control-status registers. -/
def setup_timers (t : TmrCtr) : TmrCtr :=
  let t := XTmrCtr_WriteReg t 0 TLR0 MS1_VALUE
  let t := XTmrCtr_WriteReg t 1 TLR0 MS2_VALUE
  let t := XTmrCtr_WriteReg t 0 TCSR0 0x296
  XTmrCtr_WriteReg t 1 TCSR0 0x296

/-! ## `main` (lines 124-255) -/

/-- How the startup part of `main` ends: it returns a status to the caller, or it
enters the `while(1)` dispatch loop. -/
inductive MainResult where
  | returned (status : Int) (s : State)
  | loop (s : State)

/-- The state at the end of the startup part of `main`. -/
def MainResult.state : MainResult → State
  | .returned _ s => s
  | .loop s => s

/-- Lines 149-169 of `main`: everything before the `while(1)` loop.  `Status` is the
value returned by `XGpio_Initialize(&hb3_if, XPAR_GPIO_0_DEVICE_ID)`. -/
def main_startup (Status : Int) (s : State) : MainResult :=
  let s := { s with pmod_switch :=
    config_pmod_switch GPIO_0 PWM GPIO_1 GPIO_2 GPIO_4 GPIO_5 GPIO_6 GPIO_7 }
  let s := { s with tmr := setup_timers s.tmr }
  if Status ≠ XST_SUCCESS then
    .returned XST_FAILURE s
  else
    let s := { s with hb3_if := XGpio_SetDataDirection s.hb3_if HB3_CHANNEL 0x1 }
    let s := { s with hb3_if := XGpio_DiscreteWrite s.hb3_if HB3_CHANNEL 0 }
    .loop s

/-- The initial contents given to `iop_pins[0..7]` by lines 179-186. -/
def iop_pins_default : Fin 8 → Role
  | 0 => GPIO_0
  | 1 => GPIO_1
  | 2 => GPIO_2
  | 3 => GPIO_3
  | 4 => GPIO_4
  | 5 => GPIO_5
  | 6 => GPIO_6
  | 7 => GPIO_7

/-- The store `iop_pins[index] = value` of line 189 into the local array
`u8 iop_pins[8]`, as seen from the array.  The source has no bounds check: an index in
`0..7` overwrites that entry; for a larger index the byte lands outside the array and the
eight entries are as before.  Execution continues at line 190 in both cases. -/
def iop_pins_store (iop_pins : Fin 8 → Role) (index : Nat) (value : Role) :
    Fin 8 → Role :=
  if h : index < 8 then Function.update iop_pins ⟨index, h⟩ value
  else iop_pins

/-- Lines 173-252 of `main`: `cmd = MAILBOX_CMD_ADDR; switch(cmd) ...`, one dispatch of
the pending command. -/
def main_dispatch (s : State) : Except Fault State :=
  let cmd := s.MAILBOX_CMD_ADDR
  if cmd = CONFIG_IOP_SWITCH then
    let pwm_pin := s.MAILBOX_DATA 0
    let iop_pins := iop_pins_store iop_pins_default pwm_pin PWM
    .ok { s with
      pmod_switch := config_pmod_switch (iop_pins 0) (iop_pins 1) (iop_pins 2)
        (iop_pins 3) (iop_pins 4) (iop_pins 5) (iop_pins 6) (iop_pins 7)
      MAILBOX_CMD_ADDR := 0x0 }
  else if cmd = GENERATE then
    let t := XTmrCtr_WriteReg s.tmr 0 TCSR0 0x296
    let t := XTmrCtr_WriteReg t 1 TCSR0 0x296
    let Timer1Value := s.MAILBOX_DATA 0 &&& 0x0ffff
    let t := XTmrCtr_WriteReg t 0 TLR0 (wrap32 (Timer1Value * 100))
    let Timer2Value := wrap32 ((s.MAILBOX_DATA 1 &&& 0x07f) * Timer1Value) / 100
    let t := XTmrCtr_WriteReg t 1 TLR0 (wrap32 (Timer2Value * 100))
    .ok { s with tmr := t, MAILBOX_CMD_ADDR := 0x0 }
  else if cmd = STOP then
    let t := XTmrCtr_WriteReg s.tmr 0 TCSR0 0
    let t := XTmrCtr_WriteReg t 1 TCSR0 0
    .ok { s with tmr := t, MAILBOX_CMD_ADDR := 0x0 }
  else if cmd = READ then
    let GPIO_data_direction := XGpio_GetDataDirection s.hb3_if HB3_CHANNEL
    .ok { s with
      MAILBOX_DATA := Function.update s.MAILBOX_DATA 0 GPIO_data_direction
      MAILBOX_CMD_ADDR := 0x9 }
  else if cmd = WRITE then
    let direction := s.MAILBOX_DATA 0
    .ok { s with
      hb3_if := XGpio_DiscreteWrite s.hb3_if HB3_CHANNEL direction
      MAILBOX_CMD_ADDR := 0x0 }
  else
    .ok { s with MAILBOX_CMD_ADDR := 0x0 }

/-- One polling step of the loop `while(1){ while(MAILBOX_CMD_ADDR==0); ... }` (lines
171-253): while the command word is zero the firmware only re-reads it; otherwise the
pending command is dispatched. -/
def main_poll (s : State) : Except Fault State :=
  if s.MAILBOX_CMD_ADDR = 0 then .ok s else main_dispatch s

/-! ## The host side of the mailbox -/

/-- Modelled from the spec: the host stores a value into parameter slot `i`. -/
def host_write_data (s : State) (i v : Nat) : State :=
  { s with MAILBOX_DATA := Function.update s.MAILBOX_DATA i v }

/-- Modelled from the spec: the host issues a command by storing its opcode into the
command word. -/
def host_write_cmd (s : State) (cmd : Nat) : State :=
  { s with MAILBOX_CMD_ADDR := cmd }

/-! ## Timing formula (comment at lines 73-77) -/

/-- The AXI clock period in microseconds under which the scaling of `case GENERATE`
(`Timer1Value*100` ticks for `Timer1Value` microseconds) is exact: 100 ticks per
microsecond. -/
def AXI_CLOCK_PERIOD : ℚ := 1 / 100

/-- The formula `TIMING_INTERVAL = (TLRx + 2) * AXI_CLOCK_PERIOD`, in microseconds. -/
def TIMING_INTERVAL (TLRx : Nat) : ℚ := ((TLRx : ℚ) + 2) * AXI_CLOCK_PERIOD

/-- The formula `PWM_PERIOD = (TLR0 + 2) * AXI_CLOCK_PERIOD`. -/
def PWM_PERIOD (t : TmrCtr) : ℚ := TIMING_INTERVAL t.tlr0

/-- The formula `PWM_HIGH_TIME = (TLR1 + 2) * AXI_CLOCK_PERIOD`. -/
def PWM_HIGH_TIME (t : TmrCtr) : ℚ := TIMING_INTERVAL t.tlr1

/-- A state with every register zero and no pin assigned, used for concrete runs. -/
def zeroState : State :=
  { MAILBOX_CMD_ADDR := 0
    MAILBOX_DATA := fun _ => 0
    pmod_switch := []
    tmr := { tcsr0 := 0, tlr0 := 0, tcsr1 := 0, tlr1 := 0 }
    hb3_if := { tri := fun _ => 0, data := fun _ => 0 } }

/-! ## Runs of the firmware against a host -/

/-- What can happen next once the dispatch loop has been entered: the host stores a
command word, the host stores a parameter slot, or the firmware makes one polling step
of the loop at lines 171-253. -/
inductive Event where
  | host_cmd (cmd : Nat)
  | host_data (i v : Nat)
  | poll
  deriving DecidableEq, Repr

/-- The effect of one event on the state. -/
def step (s : State) : Event → Except Fault State
  | .host_cmd cmd => .ok (host_write_cmd s cmd)
  | .host_data i v => .ok (host_write_data s i v)
  | .poll => main_poll s

/-- The effect of a sequence of events, one after the other. -/
def run (s : State) : List Event → Except Fault State
  | [] => .ok s
  | e :: es =>
    match step s e with
    | .ok s' => run s' es
    | .error f => .error f

/-- Every polling step of the run that finds `CONFIG_IOP_SWITCH` pending finds a pin
index in `0..7` in slot 0. -/
def pin_indices_ok (s : State) : List Event → Bool
  | [] => true
  | e :: es =>
    (match e with
      | .poll => decide (s.MAILBOX_CMD_ADDR = CONFIG_IOP_SWITCH → s.MAILBOX_DATA 0 ≤ 7)
      | _ => true) &&
    (match step s e with
      | .ok s' => pin_indices_ok s' es
      | .error _ => true)

/-- The duty computation in the other order, dividing the period by 100 before
multiplying by the duty: the order the specification tells an implementer not to use.
It is stated from the specification for comparison with `case GENERATE`, which
multiplies first. -/
def Timer2Value_divide_first (duty_percent period_us : Nat) : Nat :=
  (duty_percent * (period_us / 100)) * 100

/-! ## Properties -/

/-- Masking an in-range period with `0xffff` leaves it unchanged. -/
theorem and_ffff_of_le {n : Nat} (h : n ≤ 65535) : n &&& 0x0ffff = n := by
  have h1 : n < 2 ^ 16 := by omega
  exact Nat.and_pow_two_sub_one_of_lt_two_pow h1

/-- Masking an in-range duty with `0x7f` leaves it unchanged. -/
theorem and_7f_of_le {n : Nat} (h : n ≤ 127) : n &&& 0x07f = n := by
  have h1 : n < 2 ^ 7 := by omega
  exact Nat.and_pow_two_sub_one_of_lt_two_pow h1

/-- The timer registers written by `XTmrCtr_WriteReg`, one lemma per register the
firmware addresses. -/
theorem XTmrCtr_WriteReg_tcsr0 (t : TmrCtr) (v : Nat) :
    XTmrCtr_WriteReg t 0 TCSR0 v = { t with tcsr0 := v } := rfl

/-- Writing channel 0 at `TLR0` sets the load register of timer 0. -/
theorem XTmrCtr_WriteReg_tlr0 (t : TmrCtr) (v : Nat) :
    XTmrCtr_WriteReg t 0 TLR0 v = { t with tlr0 := v } := rfl

/-- Writing channel 1 at `TCSR0` sets the control-status register of timer 1. -/
theorem XTmrCtr_WriteReg_tcsr1 (t : TmrCtr) (v : Nat) :
    XTmrCtr_WriteReg t 1 TCSR0 v = { t with tcsr1 := v } := rfl

/-- Writing channel 1 at `TLR0` sets the load register of timer 1. -/
theorem XTmrCtr_WriteReg_tlr1 (t : TmrCtr) (v : Nat) :
    XTmrCtr_WriteReg t 1 TLR0 v = { t with tlr1 := v } := rfl

/-- The result of `case GENERATE`, register by register. -/
theorem main_dispatch_GENERATE (s : State) (hcmd : s.MAILBOX_CMD_ADDR = GENERATE) :
    main_dispatch s = .ok { s with
      tmr :=
        { tcsr0 := 0x296
          tlr0 := wrap32 ((s.MAILBOX_DATA 0 &&& 0x0ffff) * 100)
          tcsr1 := 0x296
          tlr1 := wrap32 (wrap32 ((s.MAILBOX_DATA 1 &&& 0x07f) *
            (s.MAILBOX_DATA 0 &&& 0x0ffff)) / 100 * 100) }
      MAILBOX_CMD_ADDR := 0 } := by
  simp only [main_dispatch, hcmd, GENERATE, CONFIG_IOP_SWITCH]
  rfl

/-- The result of `case CONFIG_IOP_SWITCH` when the pin index in slot 0 is one of `0..7`:
the roles handed to `config_pmod_switch` are the defaults with entry `pwm_pin`
overwritten by `PWM`. -/
theorem main_dispatch_CONFIG_IOP_SWITCH (s : State)
    (hcmd : s.MAILBOX_CMD_ADDR = CONFIG_IOP_SWITCH) (hpin : s.MAILBOX_DATA 0 < 8) :
    main_dispatch s = .ok { s with
      pmod_switch :=
        config_pmod_switch
          (Function.update iop_pins_default ⟨s.MAILBOX_DATA 0, hpin⟩ PWM 0)
          (Function.update iop_pins_default ⟨s.MAILBOX_DATA 0, hpin⟩ PWM 1)
          (Function.update iop_pins_default ⟨s.MAILBOX_DATA 0, hpin⟩ PWM 2)
          (Function.update iop_pins_default ⟨s.MAILBOX_DATA 0, hpin⟩ PWM 3)
          (Function.update iop_pins_default ⟨s.MAILBOX_DATA 0, hpin⟩ PWM 4)
          (Function.update iop_pins_default ⟨s.MAILBOX_DATA 0, hpin⟩ PWM 5)
          (Function.update iop_pins_default ⟨s.MAILBOX_DATA 0, hpin⟩ PWM 6)
          (Function.update iop_pins_default ⟨s.MAILBOX_DATA 0, hpin⟩ PWM 7)
      MAILBOX_CMD_ADDR := 0 } := by
  simp only [main_dispatch, hcmd, iop_pins_store, hpin, dite_true, if_true]

/-- The result of `case CONFIG_IOP_SWITCH` when the pin index in slot 0 is 8 or more: no
entry of `iop_pins` is overwritten, `config_pmod_switch` receives the eight plain GPIO
roles, and the command word is cleared. -/
theorem main_dispatch_CONFIG_IOP_SWITCH_out_of_range (s : State)
    (hcmd : s.MAILBOX_CMD_ADDR = CONFIG_IOP_SWITCH) (hpin : 8 ≤ s.MAILBOX_DATA 0) :
    main_dispatch s = .ok { s with
      pmod_switch := [GPIO_0, GPIO_1, GPIO_2, GPIO_3, GPIO_4, GPIO_5, GPIO_6, GPIO_7]
      MAILBOX_CMD_ADDR := 0 } := by
  have h : ¬ s.MAILBOX_DATA 0 < 8 := by omega
  simp only [main_dispatch, hcmd, iop_pins_store, h, dite_false, if_true]
  rfl

/-- The role array handed to `config_pmod_switch` for each pin index `0..7`. -/
theorem iop_pins_after_store (p : Nat) (hp : p < 8) :
    config_pmod_switch
        (Function.update iop_pins_default ⟨p, hp⟩ PWM 0)
        (Function.update iop_pins_default ⟨p, hp⟩ PWM 1)
        (Function.update iop_pins_default ⟨p, hp⟩ PWM 2)
        (Function.update iop_pins_default ⟨p, hp⟩ PWM 3)
        (Function.update iop_pins_default ⟨p, hp⟩ PWM 4)
        (Function.update iop_pins_default ⟨p, hp⟩ PWM 5)
        (Function.update iop_pins_default ⟨p, hp⟩ PWM 6)
        (Function.update iop_pins_default ⟨p, hp⟩ PWM 7)
      = [GPIO_0, GPIO_1, GPIO_2, GPIO_3, GPIO_4, GPIO_5, GPIO_6, GPIO_7].set p PWM := by
  interval_cases p <;> rfl

/-- The result of `case STOP`. -/
theorem main_dispatch_STOP (s : State) (hcmd : s.MAILBOX_CMD_ADDR = STOP) :
    main_dispatch s = .ok { s with
      tmr := { s.tmr with tcsr0 := 0, tcsr1 := 0 }
      MAILBOX_CMD_ADDR := 0 } := by
  simp only [main_dispatch, hcmd, STOP, GENERATE, CONFIG_IOP_SWITCH]
  rfl

/-- The result of `case READ`. -/
theorem main_dispatch_READ (s : State) (hcmd : s.MAILBOX_CMD_ADDR = READ) :
    main_dispatch s = .ok { s with
      MAILBOX_DATA := Function.update s.MAILBOX_DATA 0 (s.hb3_if.tri HB3_CHANNEL)
      MAILBOX_CMD_ADDR := 0x9 } := by
  simp only [main_dispatch, hcmd, READ, STOP, GENERATE, CONFIG_IOP_SWITCH]
  rfl

/-- The result of `case WRITE`. -/
theorem main_dispatch_WRITE (s : State) (hcmd : s.MAILBOX_CMD_ADDR = WRITE) :
    main_dispatch s = .ok { s with
      hb3_if := { s.hb3_if with
        data := Function.update s.hb3_if.data HB3_CHANNEL (s.MAILBOX_DATA 0) }
      MAILBOX_CMD_ADDR := 0 } := by
  simp only [main_dispatch, hcmd, WRITE, READ, STOP, GENERATE, CONFIG_IOP_SWITCH]
  rfl

/-- The result of the `default` case. -/
theorem main_dispatch_default (s : State)
    (h1 : s.MAILBOX_CMD_ADDR ≠ CONFIG_IOP_SWITCH) (h3 : s.MAILBOX_CMD_ADDR ≠ GENERATE)
    (h5 : s.MAILBOX_CMD_ADDR ≠ STOP) (h7 : s.MAILBOX_CMD_ADDR ≠ WRITE)
    (h9 : s.MAILBOX_CMD_ADDR ≠ READ) :
    main_dispatch s = .ok { s with MAILBOX_CMD_ADDR := 0 } := by
  simp only [main_dispatch, h1, h3, h5, h7, h9, if_false]

/-- A polling step with a pending command is a dispatch. -/
theorem main_poll_of_ne_zero (s : State) (h : s.MAILBOX_CMD_ADDR ≠ 0) :
    main_poll s = main_dispatch s := by
  simp only [main_poll, h, if_false]

/-- C1: for a period in `[0, 65535]` in slot 0 and a duty in `[0, 127]` in slot 1, one
dispatch of GENERATE succeeds, writes timer-0 load `period_us * 100` and timer-1 load
`((duty_percent * period_us) / 100) * 100` (exact natural-number values, truncating
division), sets both control-status registers to `0x296` and clears the command word. -/
theorem generate_programs_timers (s : State) (period_us duty_percent : Nat)
    (hcmd : s.MAILBOX_CMD_ADDR = GENERATE)
    (hperiod : s.MAILBOX_DATA 0 = period_us) (hduty : s.MAILBOX_DATA 1 = duty_percent)
    (hp : period_us ≤ 65535) (hd : duty_percent ≤ 127) :
    ∃ s', main_dispatch s = .ok s' ∧
      s'.tmr.tlr0 = period_us * 100 ∧
      s'.tmr.tlr1 = ((duty_percent * period_us) / 100) * 100 ∧
      s'.tmr.tcsr0 = 0x296 ∧ s'.tmr.tcsr1 = 0x296 ∧
      s'.MAILBOX_CMD_ADDR = 0 := by
  have h1 : period_us * 100 < 2 ^ 32 := by omega
  have h2 : duty_percent * period_us < 2 ^ 32 := by
    calc duty_percent * period_us ≤ 127 * 65535 := Nat.mul_le_mul hd hp
      _ < 2 ^ 32 := by norm_num
  have h3 : duty_percent * period_us / 100 * 100 < 2 ^ 32 := by
    have : duty_percent * period_us / 100 * 100 ≤ duty_percent * period_us :=
      Nat.div_mul_le_self _ _
    omega
  refine ⟨_, main_dispatch_GENERATE s hcmd, ?_⟩
  simp only [hperiod, hduty, and_ffff_of_le hp, and_7f_of_le hd, wrap32,
    Nat.mod_eq_of_lt h1, Nat.mod_eq_of_lt h2, Nat.mod_eq_of_lt h3]
  simp

/-- C1 at a concrete input: period 1000 us, duty 25 percent. -/
theorem generate_programs_timers_witness :
    ∃ s', main_dispatch
        { zeroState with
          MAILBOX_CMD_ADDR := 3
          MAILBOX_DATA := fun i => if i = 0 then 1000 else 25 } = .ok s' ∧
      s'.tmr.tlr0 = 1000 * 100 ∧
      s'.tmr.tlr1 = ((25 * 1000) / 100) * 100 ∧
      s'.tmr.tcsr0 = 0x296 ∧ s'.tmr.tcsr1 = 0x296 ∧
      s'.MAILBOX_CMD_ADDR = 0 :=
  generate_programs_timers _ 1000 25 rfl rfl rfl (by decide) (by decide)

/-- The role list produced for a pin index `p` in `0..7`: its length, the PWM count and
the count of plain GPIO roles. -/
theorem set_PWM_facts (p : Nat) (hp : p ≤ 7) :
    ([GPIO_0, GPIO_1, GPIO_2, GPIO_3, GPIO_4, GPIO_5, GPIO_6, GPIO_7].set p PWM).length = 8 ∧
    ([GPIO_0, GPIO_1, GPIO_2, GPIO_3, GPIO_4, GPIO_5, GPIO_6, GPIO_7].set p PWM)[p]? = some PWM ∧
    ([GPIO_0, GPIO_1, GPIO_2, GPIO_3, GPIO_4, GPIO_5, GPIO_6, GPIO_7].set p PWM).count PWM = 1 ∧
    ([GPIO_0, GPIO_1, GPIO_2, GPIO_3, GPIO_4, GPIO_5, GPIO_6, GPIO_7].set p PWM).countP
      Role.isGPIO = 7 := by
  interval_cases p <;> decide

/-- The role list produced for a pin index `p` in `0..7`, pin by pin: every pin other
than `p` has the plain GPIO role of its own number. -/
theorem set_PWM_other_pins (l : List Role) (p : Nat) (hp : p ≤ 7)
    (hl : l = [GPIO_0, GPIO_1, GPIO_2, GPIO_3, GPIO_4, GPIO_5, GPIO_6, GPIO_7].set p PWM) :
    (p ≠ 0 → l[0]? = some GPIO_0) ∧
    (p ≠ 1 → l[1]? = some GPIO_1) ∧
    (p ≠ 2 → l[2]? = some GPIO_2) ∧
    (p ≠ 3 → l[3]? = some GPIO_3) ∧
    (p ≠ 4 → l[4]? = some GPIO_4) ∧
    (p ≠ 5 → l[5]? = some GPIO_5) ∧
    (p ≠ 6 → l[6]? = some GPIO_6) ∧
    (p ≠ 7 → l[7]? = some GPIO_7) := by
  subst hl
  interval_cases p <;> decide

/-- C2: for a pin index `p` in `0..7` in slot 0, one dispatch of CONFIG_IOP_SWITCH succeeds
and hands `config_pmod_switch` the eight roles `GPIO_0, ..., GPIO_7` with entry `p`
replaced by `PWM`: pin `p` is `PWM`, every other pin `i` has the plain GPIO role `GPIO_i`
of its own number, exactly one pin is PWM, seven are plain GPIO, and the command word is
0 afterwards. -/
theorem config_iop_switch_one_pwm (s : State) (p : Nat)
    (hcmd : s.MAILBOX_CMD_ADDR = CONFIG_IOP_SWITCH) (hslot : s.MAILBOX_DATA 0 = p)
    (hp : p ≤ 7) :
    ∃ s', main_dispatch s = .ok s' ∧
      s'.pmod_switch
        = [GPIO_0, GPIO_1, GPIO_2, GPIO_3, GPIO_4, GPIO_5, GPIO_6, GPIO_7].set p PWM ∧
      s'.pmod_switch.length = 8 ∧
      s'.pmod_switch[p]? = some PWM ∧
      (p ≠ 0 → s'.pmod_switch[0]? = some GPIO_0) ∧
      (p ≠ 1 → s'.pmod_switch[1]? = some GPIO_1) ∧
      (p ≠ 2 → s'.pmod_switch[2]? = some GPIO_2) ∧
      (p ≠ 3 → s'.pmod_switch[3]? = some GPIO_3) ∧
      (p ≠ 4 → s'.pmod_switch[4]? = some GPIO_4) ∧
      (p ≠ 5 → s'.pmod_switch[5]? = some GPIO_5) ∧
      (p ≠ 6 → s'.pmod_switch[6]? = some GPIO_6) ∧
      (p ≠ 7 → s'.pmod_switch[7]? = some GPIO_7) ∧
      s'.pmod_switch.count PWM = 1 ∧
      s'.pmod_switch.countP Role.isGPIO = 7 ∧
      s'.MAILBOX_CMD_ADDR = 0 := by
  subst hslot
  have hlt : s.MAILBOX_DATA 0 < 8 := by omega
  refine ⟨_, main_dispatch_CONFIG_IOP_SWITCH s hcmd hlt, ?_⟩
  dsimp only
  rw [iop_pins_after_store]
  obtain ⟨h1, h2, h4, h5⟩ := set_PWM_facts (s.MAILBOX_DATA 0) hp
  obtain ⟨g0, g1, g2, g3, g4, g5, g6, g7⟩ :=
    set_PWM_other_pins _ (s.MAILBOX_DATA 0) hp rfl
  exact ⟨rfl, h1, h2, g0, g1, g2, g3, g4, g5, g6, g7, h4, h5, rfl⟩

/-- C2 at a concrete input: pin index 3. -/
theorem config_iop_switch_one_pwm_witness :
    ∃ s', main_dispatch
        { zeroState with MAILBOX_CMD_ADDR := 1, MAILBOX_DATA := fun _ => 3 } = .ok s' ∧
      s'.pmod_switch
        = [GPIO_0, GPIO_1, GPIO_2, GPIO_3, GPIO_4, GPIO_5, GPIO_6, GPIO_7].set 3 PWM ∧
      s'.pmod_switch.length = 8 ∧
      s'.pmod_switch[3]? = some PWM ∧
      (3 ≠ 0 → s'.pmod_switch[0]? = some GPIO_0) ∧
      (3 ≠ 1 → s'.pmod_switch[1]? = some GPIO_1) ∧
      (3 ≠ 2 → s'.pmod_switch[2]? = some GPIO_2) ∧
      (3 ≠ 3 → s'.pmod_switch[3]? = some GPIO_3) ∧
      (3 ≠ 4 → s'.pmod_switch[4]? = some GPIO_4) ∧
      (3 ≠ 5 → s'.pmod_switch[5]? = some GPIO_5) ∧
      (3 ≠ 6 → s'.pmod_switch[6]? = some GPIO_6) ∧
      (3 ≠ 7 → s'.pmod_switch[7]? = some GPIO_7) ∧
      s'.pmod_switch.count PWM = 1 ∧
      s'.pmod_switch.countP Role.isGPIO = 7 ∧
      s'.MAILBOX_CMD_ADDR = 0 :=
  config_iop_switch_one_pwm _ 3 rfl rfl (by decide)

/-- C3: one dispatch of READ stores the data-direction mask of the GPIO channel into
slot 0 and leaves the command word equal to `0x9`, which is not 0.  The stored value is
the direction mask whatever the discrete value register holds. -/
theorem read_returns_direction_mask (s : State) (hcmd : s.MAILBOX_CMD_ADDR = READ) :
    ∃ s', main_dispatch s = .ok s' ∧
      s'.MAILBOX_DATA 0 = XGpio_GetDataDirection s.hb3_if HB3_CHANNEL ∧
      s'.MAILBOX_CMD_ADDR = 0x9 ∧ s'.MAILBOX_CMD_ADDR ≠ 0 ∧
      ∀ v : Nat, ∃ t',
        main_dispatch { s with hb3_if := XGpio_DiscreteWrite s.hb3_if HB3_CHANNEL v }
          = .ok t' ∧
        t'.MAILBOX_DATA 0 = XGpio_GetDataDirection s.hb3_if HB3_CHANNEL := by
  refine ⟨_, main_dispatch_READ s hcmd, ?_, rfl, by simp, ?_⟩
  · simp [XGpio_GetDataDirection]
  · intro v
    refine ⟨_, main_dispatch_READ _ hcmd, ?_⟩
    simp [XGpio_GetDataDirection, XGpio_DiscreteWrite]

/-- C3 at a concrete input: direction mask 1, value register 6. -/
theorem read_returns_direction_mask_witness :
    ∃ s', main_dispatch
        { zeroState with
          MAILBOX_CMD_ADDR := 9
          hb3_if := { tri := fun _ => 1, data := fun _ => 6 } } = .ok s' ∧
      s'.MAILBOX_DATA 0 = 1 ∧
      s'.MAILBOX_CMD_ADDR = 0x9 ∧ s'.MAILBOX_CMD_ADDR ≠ 0 ∧
      ∀ v : Nat, ∃ t',
        main_dispatch
          { zeroState with
            MAILBOX_CMD_ADDR := 9
            hb3_if := XGpio_DiscreteWrite { tri := fun _ => 1, data := fun _ => 6 }
              HB3_CHANNEL v } = .ok t' ∧
        t'.MAILBOX_DATA 0 = 1 :=
  read_returns_direction_mask
    { zeroState with
      MAILBOX_CMD_ADDR := 9
      hb3_if := { tri := fun _ => 1, data := fun _ => 6 } } rfl

/-- C4: one dispatch of WRITE sets the discrete output register of the GPIO channel to
exactly the value `v` of slot 0 (for every `v`, in particular every 32-bit one), with no
masking, leaves the direction mask alone, and clears the command word. -/
theorem write_sets_output_verbatim (s : State) (v : Nat)
    (hcmd : s.MAILBOX_CMD_ADDR = WRITE) (hslot : s.MAILBOX_DATA 0 = v) :
    ∃ s', main_dispatch s = .ok s' ∧
      s'.hb3_if.data HB3_CHANNEL = v ∧
      s'.MAILBOX_CMD_ADDR = 0 := by
  refine ⟨_, main_dispatch_WRITE s hcmd, ?_, rfl⟩
  simp [hslot]

/-- C4 at a concrete input: the largest 32-bit value. -/
theorem write_sets_output_verbatim_witness :
    ∃ s', main_dispatch
        { zeroState with MAILBOX_CMD_ADDR := 7, MAILBOX_DATA := fun _ => 4294967295 }
          = .ok s' ∧
      s'.hb3_if.data HB3_CHANNEL = 4294967295 ∧
      s'.MAILBOX_CMD_ADDR = 0 :=
  write_sets_output_verbatim _ 4294967295 rfl rfl

/-- C5: one dispatch of STOP sets both control-status registers and the command word to
0, and STOP is idempotent: when the host issues STOP again, the second dispatch ends in
exactly the state the first one produced. -/
theorem stop_disables_timers_idempotent (s : State) (hcmd : s.MAILBOX_CMD_ADDR = STOP) :
    ∃ s', main_dispatch s = .ok s' ∧
      s'.tmr.tcsr0 = 0 ∧ s'.tmr.tcsr1 = 0 ∧ s'.MAILBOX_CMD_ADDR = 0 ∧
      main_dispatch (host_write_cmd s' STOP) = .ok s' := by
  refine ⟨_, main_dispatch_STOP s hcmd, rfl, rfl, rfl, ?_⟩
  rw [main_dispatch_STOP _ rfl]
  rfl

/-- C5 at a concrete input: both timers enabled with `0x296`. -/
theorem stop_disables_timers_idempotent_witness :
    ∃ s', main_dispatch
        { zeroState with
          MAILBOX_CMD_ADDR := 5
          tmr := { tcsr0 := 0x296, tlr0 := 99998, tcsr1 := 0x296, tlr1 := 49998 } }
          = .ok s' ∧
      s'.tmr.tcsr0 = 0 ∧ s'.tmr.tcsr1 = 0 ∧ s'.MAILBOX_CMD_ADDR = 0 ∧
      main_dispatch (host_write_cmd s' STOP) = .ok s' :=
  stop_disables_timers_idempotent _ rfl

/-- C6: while the command word is 0, a polling step leaves the whole state unchanged. -/
theorem idle_poll_unchanged (s : State) (hidle : s.MAILBOX_CMD_ADDR = 0) :
    main_poll s = .ok s := by
  simp only [main_poll, hidle, if_true]

/-- C6 at a concrete input: the all-zero state. -/
theorem idle_poll_unchanged_witness : main_poll zeroState = .ok zeroState :=
  idle_poll_unchanged zeroState rfl

/-- C7: for a non-zero command word other than `0x1`, `0x3`, `0x5`, `0x7`, `0x9`, a polling
step is a dispatch whose only effect is to clear the command word: the timers, the GPIO
device, the pin-switch assignment and the parameter slots are unchanged. -/
theorem unknown_opcode_only_clears (s : State)
    (h0 : s.MAILBOX_CMD_ADDR ≠ 0)
    (h1 : s.MAILBOX_CMD_ADDR ≠ 0x1) (h3 : s.MAILBOX_CMD_ADDR ≠ 0x3)
    (h5 : s.MAILBOX_CMD_ADDR ≠ 0x5) (h7 : s.MAILBOX_CMD_ADDR ≠ 0x7)
    (h9 : s.MAILBOX_CMD_ADDR ≠ 0x9) :
    main_poll s = main_dispatch s ∧
    ∃ s', main_dispatch s = .ok s' ∧
      s' = { s with MAILBOX_CMD_ADDR := 0 } ∧
      s'.tmr = s.tmr ∧ s'.hb3_if = s.hb3_if ∧ s'.pmod_switch = s.pmod_switch ∧
      s'.MAILBOX_DATA = s.MAILBOX_DATA ∧ s'.MAILBOX_CMD_ADDR = 0 :=
  ⟨main_poll_of_ne_zero s h0,
    _, main_dispatch_default s h1 h3 h5 h7 h9, rfl, rfl, rfl, rfl, rfl, rfl⟩

/-- C7 at a concrete input: the unassigned opcode `0x2`. -/
theorem unknown_opcode_only_clears_witness :
    main_poll { zeroState with MAILBOX_CMD_ADDR := 2 }
      = main_dispatch { zeroState with MAILBOX_CMD_ADDR := 2 } ∧
    ∃ s', main_dispatch { zeroState with MAILBOX_CMD_ADDR := 2 } = .ok s' ∧
      s' = { { zeroState with MAILBOX_CMD_ADDR := 2 } with MAILBOX_CMD_ADDR := 0 } ∧
      s'.tmr = zeroState.tmr ∧ s'.hb3_if = zeroState.hb3_if ∧
      s'.pmod_switch = zeroState.pmod_switch ∧
      s'.MAILBOX_DATA = zeroState.MAILBOX_DATA ∧ s'.MAILBOX_CMD_ADDR = 0 :=
  unknown_opcode_only_clears { zeroState with MAILBOX_CMD_ADDR := 2 }
    (by decide) (by decide) (by decide) (by decide) (by decide) (by decide)

/-- The registers after `setup_timers`. -/
theorem setup_timers_eq (t : TmrCtr) :
    setup_timers t = { tcsr0 := 0x296, tlr0 := MS1_VALUE, tcsr1 := 0x296, tlr1 := MS2_VALUE } :=
  rfl

/-- The state in which a successful startup enters the dispatch loop. -/
theorem main_startup_success (s : State) :
    main_startup XST_SUCCESS s = .loop { s with
      pmod_switch := [GPIO_0, PWM, GPIO_1, GPIO_2, GPIO_4, GPIO_5, GPIO_6, GPIO_7]
      tmr := { tcsr0 := 0x296, tlr0 := MS1_VALUE, tcsr1 := 0x296, tlr1 := MS2_VALUE }
      hb3_if :=
        { tri := Function.update s.hb3_if.tri HB3_CHANNEL 0x1
          data := Function.update s.hb3_if.data HB3_CHANNEL 0 } } :=
  rfl

/-- The state with which a failing startup returns. -/
theorem main_startup_failure (Status : Int) (s : State) (h : Status ≠ XST_SUCCESS) :
    main_startup Status s = .returned XST_FAILURE { s with
      pmod_switch := [GPIO_0, PWM, GPIO_1, GPIO_2, GPIO_4, GPIO_5, GPIO_6, GPIO_7]
      tmr := { tcsr0 := 0x296, tlr0 := MS1_VALUE, tcsr1 := 0x296, tlr1 := MS2_VALUE } } := by
  simp only [main_startup, h, ne_eq, not_false_eq_true, if_true]
  rfl

/-- C8: from the state left by a successful startup, the host sequence
GENERATE(1000, 25), STOP, CONFIG_IOP_SWITCH(3), WRITE(1), READ gives in turn: timer-0 load
100000 and timer-1 load 25000; both control-status registers 0; pin 3 PWM and the other
seven pins plain GPIO; GPIO output register 1; slot 0 equal to the current direction mask
and command word `0x9`. -/
theorem end_to_end_scenario (s0 : State) :
    ∃ s1 s2 s3 s4 s5 s6 : State,
      main_startup XST_SUCCESS s0 = .loop s1 ∧
      main_poll (host_write_cmd (host_write_data (host_write_data s1 0 1000) 1 25) GENERATE)
        = .ok s2 ∧
      s2.tmr.tlr0 = 100000 ∧ s2.tmr.tlr1 = 25000 ∧
      main_poll (host_write_cmd s2 STOP) = .ok s3 ∧
      s3.tmr.tcsr0 = 0 ∧ s3.tmr.tcsr1 = 0 ∧
      main_poll (host_write_cmd (host_write_data s3 0 3) CONFIG_IOP_SWITCH) = .ok s4 ∧
      s4.pmod_switch = [GPIO_0, GPIO_1, GPIO_2, PWM, GPIO_4, GPIO_5, GPIO_6, GPIO_7] ∧
      main_poll (host_write_cmd (host_write_data s4 0 1) WRITE) = .ok s5 ∧
      s5.hb3_if.data HB3_CHANNEL = 1 ∧
      main_poll (host_write_cmd s5 READ) = .ok s6 ∧
      s6.MAILBOX_DATA 0 = XGpio_GetDataDirection s5.hb3_if HB3_CHANNEL ∧
      s6.MAILBOX_CMD_ADDR = 0x9 := by
  obtain ⟨s1, h1⟩ : ∃ s1, main_startup XST_SUCCESS s0 = .loop s1 :=
    ⟨_, main_startup_success s0⟩
  obtain ⟨s2, h2, h2a, h2b⟩ : ∃ s2,
      main_poll (host_write_cmd (host_write_data (host_write_data s1 0 1000) 1 25) GENERATE)
        = .ok s2 ∧ s2.tmr.tlr0 = 100000 ∧ s2.tmr.tlr1 = 25000 :=
    ⟨_, (main_poll_of_ne_zero _ (by simp [host_write_cmd, GENERATE])).trans
      (main_dispatch_GENERATE _ rfl),
      by simp only [host_write_cmd, host_write_data, wrap32, Function.update_same,
        Function.update_noteq (show (0 : Nat) ≠ 1 by decide)]; rfl,
      by simp only [host_write_cmd, host_write_data, wrap32, Function.update_same,
        Function.update_noteq (show (0 : Nat) ≠ 1 by decide)]; rfl⟩
  obtain ⟨s3, h3, h3a, h3b⟩ : ∃ s3,
      main_poll (host_write_cmd s2 STOP) = .ok s3 ∧ s3.tmr.tcsr0 = 0 ∧ s3.tmr.tcsr1 = 0 :=
    ⟨_, (main_poll_of_ne_zero _ (by simp [host_write_cmd, STOP])).trans
      (main_dispatch_STOP _ rfl), rfl, rfl⟩
  obtain ⟨s4, h4, h4a⟩ : ∃ s4,
      main_poll (host_write_cmd (host_write_data s3 0 3) CONFIG_IOP_SWITCH) = .ok s4 ∧
      s4.pmod_switch = [GPIO_0, GPIO_1, GPIO_2, PWM, GPIO_4, GPIO_5, GPIO_6, GPIO_7] :=
    ⟨_, (main_poll_of_ne_zero _ (by simp [host_write_cmd, CONFIG_IOP_SWITCH])).trans
      (main_dispatch_CONFIG_IOP_SWITCH _ rfl (by simp [host_write_cmd, host_write_data])),
      by simp [host_write_cmd, host_write_data, config_pmod_switch, iop_pins_default,
        Function.update]⟩
  obtain ⟨s5, h5, h5a⟩ : ∃ s5,
      main_poll (host_write_cmd (host_write_data s4 0 1) WRITE) = .ok s5 ∧
      s5.hb3_if.data HB3_CHANNEL = 1 :=
    ⟨_, (main_poll_of_ne_zero _ (by simp [host_write_cmd, WRITE])).trans
      (main_dispatch_WRITE _ rfl), by simp [host_write_cmd, host_write_data]⟩
  obtain ⟨s6, h6, h6a, h6b⟩ : ∃ s6,
      main_poll (host_write_cmd s5 READ) = .ok s6 ∧
      s6.MAILBOX_DATA 0 = XGpio_GetDataDirection s5.hb3_if HB3_CHANNEL ∧
      s6.MAILBOX_CMD_ADDR = 0x9 :=
    ⟨_, (main_poll_of_ne_zero _ (by simp [host_write_cmd, READ])).trans
      (main_dispatch_READ _ rfl), by simp [host_write_cmd, XGpio_GetDataDirection], rfl⟩
  exact ⟨s1, s2, s3, s4, s5, s6, h1, h2, h2a, h2b, h3, h3a, h3b, h4, h4a, h5, h5a, h6,
    h6a, h6b⟩

/-- The clock period `AXI_CLOCK_PERIOD` is the one under which the load written by
`case GENERATE` for a period of `period_us` microseconds counts `period_us` microseconds
of ticks. -/
theorem generate_load_scale (s : State) (period_us : Nat)
    (hcmd : s.MAILBOX_CMD_ADDR = GENERATE) (hperiod : s.MAILBOX_DATA 0 = period_us)
    (hp : period_us ≤ 65535) :
    ∃ s', main_dispatch s = .ok s' ∧
      (s'.tmr.tlr0 : ℚ) * AXI_CLOCK_PERIOD = period_us := by
  have h1 : period_us * 100 < 2 ^ 32 := by omega
  refine ⟨_, main_dispatch_GENERATE s hcmd, ?_⟩
  simp only [hperiod, and_ffff_of_le hp, wrap32, Nat.mod_eq_of_lt h1, AXI_CLOCK_PERIOD]
  push_cast
  ring

/-- C9 (evaluation of the code): whatever the outcome of GPIO initialization, startup
loads timer 0 with 99998 and timer 1 with 49998.  Under
`interval = (load + 2) * AXI_CLOCK_PERIOD` at 100 ticks per microsecond this is a PWM
period of 1000 microseconds, not 100000 microseconds; the high time is 500 microseconds,
exactly half of the period. -/
theorem startup_period_is_1000_us (Status : Int) (s : State) :
    (main_startup Status s).state.tmr.tlr0 = 99998 ∧
    (main_startup Status s).state.tmr.tlr1 = 49998 ∧
    PWM_PERIOD (main_startup Status s).state.tmr = 1000 ∧
    PWM_PERIOD (main_startup Status s).state.tmr ≠ 100000 ∧
    PWM_HIGH_TIME (main_startup Status s).state.tmr = 500 ∧
    PWM_HIGH_TIME (main_startup Status s).state.tmr * 2
      = PWM_PERIOD (main_startup Status s).state.tmr := by
  have ht : (main_startup Status s).state.tmr
      = { tcsr0 := 0x296, tlr0 := MS1_VALUE, tcsr1 := 0x296, tlr1 := MS2_VALUE } := by
    by_cases h : Status = XST_SUCCESS
    · subst h
      rw [main_startup_success]
      rfl
    · rw [main_startup_failure Status s h]
      rfl
  rw [ht]
  simp only [PWM_PERIOD, PWM_HIGH_TIME, TIMING_INTERVAL, AXI_CLOCK_PERIOD, MS1_VALUE,
    MS2_VALUE]
  norm_num

/-- C10: startup returns (with the status `XST_FAILURE`) instead of entering the dispatch
loop if and only if GPIO initialization reports a status other than `XST_SUCCESS`.  In
that case the command word, the parameter slots and the GPIO registers (direction mask
and output register) are as they were before startup, and they are not read either:
replacing them in the initial state replaces them in the final state and changes
nothing else. -/
theorem startup_fails_iff_gpio_init_fails (Status : Int) (s : State) :
    ((∃ st s', main_startup Status s = .returned st s') ↔ Status ≠ XST_SUCCESS) ∧
    ((∃ s', main_startup Status s = .loop s') ↔ Status = XST_SUCCESS) ∧
    (Status ≠ XST_SUCCESS →
      ∃ s', main_startup Status s = .returned XST_FAILURE s' ∧
        s'.MAILBOX_CMD_ADDR = s.MAILBOX_CMD_ADDR ∧
        s'.MAILBOX_DATA = s.MAILBOX_DATA ∧
        s'.hb3_if.tri = s.hb3_if.tri ∧
        s'.hb3_if.data = s.hb3_if.data ∧
        ∀ (cmd : Nat) (data : Nat → Nat) (g : XGpio),
          main_startup Status
              { s with MAILBOX_CMD_ADDR := cmd, MAILBOX_DATA := data, hb3_if := g }
            = .returned XST_FAILURE
              { s' with MAILBOX_CMD_ADDR := cmd, MAILBOX_DATA := data, hb3_if := g }) := by
  by_cases h : Status = XST_SUCCESS
  · subst h
    simp [main_startup_success]
  · refine ⟨?_, ?_, ?_⟩
    · simp [main_startup_failure Status s h, h]
    · simp [main_startup_failure Status s h, h]
    · intro _
      refine ⟨_, main_startup_failure Status s h, rfl, rfl, rfl, rfl, ?_⟩
      intro cmd data g
      rw [main_startup_failure Status _ h]

/-- C10 at a concrete input: GPIO initialization reports status 2 on the all-zero state. -/
theorem startup_fails_iff_gpio_init_fails_witness :
    ∃ s', main_startup 2 zeroState = .returned XST_FAILURE s' ∧
      s'.MAILBOX_CMD_ADDR = zeroState.MAILBOX_CMD_ADDR ∧
      s'.MAILBOX_DATA = zeroState.MAILBOX_DATA ∧
      s'.hb3_if.tri = zeroState.hb3_if.tri ∧
      s'.hb3_if.data = zeroState.hb3_if.data ∧
      ∀ (cmd : Nat) (data : Nat → Nat) (g : XGpio),
        main_startup 2
            { zeroState with MAILBOX_CMD_ADDR := cmd, MAILBOX_DATA := data, hb3_if := g }
          = .returned XST_FAILURE
            { s' with MAILBOX_CMD_ADDR := cmd, MAILBOX_DATA := data, hb3_if := g } :=
  (startup_fails_iff_gpio_init_fails 2 zeroState).2.2 (by decide)

/-- C11: for a period in `[1, 65535]` and a duty in `[1, 99]`, the timer-1 (high-time)
load written by GENERATE is strictly less than the timer-0 (period) load it writes, and
the loads written at startup, whatever the outcome of GPIO initialization, satisfy the
same strict inequality. -/
theorem high_time_load_lt_period_load (s : State) (period_us duty_percent : Nat)
    (Status : Int) (s0 : State)
    (hcmd : s.MAILBOX_CMD_ADDR = GENERATE)
    (hperiod : s.MAILBOX_DATA 0 = period_us) (hduty : s.MAILBOX_DATA 1 = duty_percent)
    (hp1 : 1 ≤ period_us) (hp : period_us ≤ 65535)
    (hd1 : 1 ≤ duty_percent) (hd : duty_percent ≤ 99) :
    (∃ s', main_dispatch s = .ok s' ∧ s'.tmr.tlr1 < s'.tmr.tlr0) ∧
    (main_startup Status s0).state.tmr.tlr1 < (main_startup Status s0).state.tmr.tlr0 := by
  constructor
  · obtain ⟨s', hs', h0, h1, -⟩ :=
      generate_programs_timers s period_us duty_percent hcmd hperiod hduty hp (by omega)
    refine ⟨s', hs', ?_⟩
    rw [h0, h1]
    have hlt : duty_percent * period_us / 100 < period_us := by
      rw [Nat.div_lt_iff_lt_mul (by norm_num)]
      calc duty_percent * period_us ≤ 99 * period_us := Nat.mul_le_mul_right _ hd
        _ < period_us * 100 := by omega
    omega
  · have ht : (main_startup Status s0).state.tmr
        = { tcsr0 := 0x296, tlr0 := MS1_VALUE, tcsr1 := 0x296, tlr1 := MS2_VALUE } := by
      by_cases h : Status = XST_SUCCESS
      · subst h
        rw [main_startup_success]
        rfl
      · rw [main_startup_failure Status s0 h]
        rfl
    rw [ht]
    decide

/-- C11 at a concrete input: period 1 us, duty 99 percent, successful startup. -/
theorem high_time_load_lt_period_load_witness :
    (∃ s', main_dispatch
        { zeroState with
          MAILBOX_CMD_ADDR := 3
          MAILBOX_DATA := fun i => if i = 0 then 1 else 99 } = .ok s' ∧
      s'.tmr.tlr1 < s'.tmr.tlr0) ∧
    (main_startup XST_SUCCESS zeroState).state.tmr.tlr1
      < (main_startup XST_SUCCESS zeroState).state.tmr.tlr0 :=
  high_time_load_lt_period_load _ 1 99 XST_SUCCESS zeroState rfl rfl rfl
    (by decide) (by decide) (by decide) (by decide)

/-- C13: GENERATE uses only bits `[15:0]` of slot 0 and bits `[6:0]` of slot 1.  Two
states with GENERATE pending whose slots 0 agree on the low 16 bits and whose slots 1
agree on the low 7 bits (whatever else differs between them) get identical values in
both load registers and both control-status registers. -/
theorem generate_uses_low_bits_only (s t : State)
    (hs : s.MAILBOX_CMD_ADDR = GENERATE) (ht : t.MAILBOX_CMD_ADDR = GENERATE)
    (h0 : s.MAILBOX_DATA 0 % 2 ^ 16 = t.MAILBOX_DATA 0 % 2 ^ 16)
    (h1 : s.MAILBOX_DATA 1 % 2 ^ 7 = t.MAILBOX_DATA 1 % 2 ^ 7) :
    ∃ s' t', main_dispatch s = .ok s' ∧ main_dispatch t = .ok t' ∧
      s'.tmr.tlr0 = t'.tmr.tlr0 ∧ s'.tmr.tlr1 = t'.tmr.tlr1 ∧
      s'.tmr.tcsr0 = t'.tmr.tcsr0 ∧ s'.tmr.tcsr1 = t'.tmr.tcsr1 := by
  have e0 : ∀ n : Nat, n &&& 0x0ffff = n % 2 ^ 16 :=
    fun n => Nat.and_pow_two_sub_one_eq_mod n 16
  have e1 : ∀ n : Nat, n &&& 0x07f = n % 2 ^ 7 :=
    fun n => Nat.and_pow_two_sub_one_eq_mod n 7
  refine ⟨_, _, main_dispatch_GENERATE s hs, main_dispatch_GENERATE t ht, ?_, ?_, rfl, rfl⟩
  · simp only [e0, h0]
  · simp only [e0, e1, h0, h1]

/-- C13 at a concrete input: slot 0 is `0xABCD0064` against `0x64`, slot 1 is
`0xFFFFFFB2` against `0x32`. -/
theorem generate_uses_low_bits_only_witness :
    ∃ s' t',
      main_dispatch
        { zeroState with
          MAILBOX_CMD_ADDR := 3
          MAILBOX_DATA := fun i => if i = 0 then 0xABCD0064 else 0xFFFFFFB2 } = .ok s' ∧
      main_dispatch
        { zeroState with
          MAILBOX_CMD_ADDR := 3
          MAILBOX_DATA := fun i => if i = 0 then 0x64 else 0x32 } = .ok t' ∧
      s'.tmr.tlr0 = t'.tmr.tlr0 ∧ s'.tmr.tlr1 = t'.tmr.tlr1 ∧
      s'.tmr.tcsr0 = t'.tmr.tcsr0 ∧ s'.tmr.tcsr1 = t'.tmr.tcsr1 :=
  generate_uses_low_bits_only _ _ rfl rfl (by decide) (by decide)

/-- C14: for a period in `[0, 65535]` and a duty in `[0, 127]` the timer-1 load written
by GENERATE, `((duty_percent * period_us) / 100) * 100`, is at least the
divide-before-multiply value `(duty_percent * (period_us / 100)) * 100`; at period 150
and duty 50 it is strictly greater (7500 against 5000), so the two orders differ. -/
theorem duty_multiply_before_divide (s : State) (period_us duty_percent : Nat)
    (hcmd : s.MAILBOX_CMD_ADDR = GENERATE)
    (hperiod : s.MAILBOX_DATA 0 = period_us) (hduty : s.MAILBOX_DATA 1 = duty_percent)
    (hp : period_us ≤ 65535) (hd : duty_percent ≤ 127) :
    (∃ s', main_dispatch s = .ok s' ∧
      s'.tmr.tlr1 = ((duty_percent * period_us) / 100) * 100 ∧
      Timer2Value_divide_first duty_percent period_us ≤ s'.tmr.tlr1) ∧
    (∃ r, main_dispatch
        { s with MAILBOX_DATA := fun i => if i = 0 then 150 else 50 } = .ok r ∧
      r.tmr.tlr1 = 7500 ∧ Timer2Value_divide_first 50 150 = 5000 ∧
      Timer2Value_divide_first 50 150 < r.tmr.tlr1) := by
  constructor
  · obtain ⟨s', hs', -, h1, -⟩ :=
      generate_programs_timers s period_us duty_percent hcmd hperiod hduty hp hd
    refine ⟨s', hs', h1, ?_⟩
    rw [h1]
    have hle : duty_percent * (period_us / 100) ≤ duty_percent * period_us / 100 := by
      rw [Nat.le_div_iff_mul_le (by norm_num)]
      calc duty_percent * (period_us / 100) * 100
          = duty_percent * (period_us / 100 * 100) := Nat.mul_assoc _ _ _
        _ ≤ duty_percent * period_us :=
          Nat.mul_le_mul_left _ (Nat.div_mul_le_self _ _)
    exact Nat.mul_le_mul_right 100 hle
  · obtain ⟨r, hr, -, h1, -⟩ :=
      generate_programs_timers
        { s with MAILBOX_DATA := fun i => if i = 0 then 150 else 50 } 150 50 hcmd rfl rfl
        (by decide) (by decide)
    refine ⟨r, hr, h1, rfl, ?_⟩
    rw [h1]
    decide

/-- C14 at a concrete input: period 150 us, duty 50 percent. -/
theorem duty_multiply_before_divide_witness :
    (∃ s', main_dispatch
        { zeroState with
          MAILBOX_CMD_ADDR := 3
          MAILBOX_DATA := fun i => if i = 0 then 150 else 50 } = .ok s' ∧
      s'.tmr.tlr1 = ((50 * 150) / 100) * 100 ∧
      Timer2Value_divide_first 50 150 ≤ s'.tmr.tlr1) ∧
    (∃ r, main_dispatch
        { ({ zeroState with
              MAILBOX_CMD_ADDR := 3
              MAILBOX_DATA := fun i => if i = 0 then 150 else 50 } : State) with
          MAILBOX_DATA := fun i => if i = 0 then 150 else 50 } = .ok r ∧
      r.tmr.tlr1 = 7500 ∧ Timer2Value_divide_first 50 150 = 5000 ∧
      Timer2Value_divide_first 50 150 < r.tmr.tlr1) :=
  duty_multiply_before_divide _ 150 50 rfl rfl rfl (by decide) (by decide)

/-- C19: a failing startup is not atomic.  When GPIO initialization reports a status other
than `XST_SUCCESS`, `main` returns `XST_FAILURE` in a state where the pin switch already
has its default assignment (pin 1 is PWM), timer 0 is loaded with 99998, timer 1 with
49998, and both control-status registers hold `0x296`. -/
theorem failing_startup_leaves_pwm_enabled (Status : Int) (s : State)
    (hfail : Status ≠ XST_SUCCESS) :
    ∃ s', main_startup Status s = .returned XST_FAILURE s' ∧
      s'.pmod_switch = [GPIO_0, PWM, GPIO_1, GPIO_2, GPIO_4, GPIO_5, GPIO_6, GPIO_7] ∧
      s'.pmod_switch[1]? = some PWM ∧
      s'.tmr.tlr0 = 99998 ∧ s'.tmr.tlr1 = 49998 ∧
      s'.tmr.tcsr0 = 0x296 ∧ s'.tmr.tcsr1 = 0x296 :=
  ⟨_, main_startup_failure Status s hfail, rfl, rfl, rfl, rfl, rfl, rfl⟩

/-- C19 at a concrete input: GPIO initialization reports status 2 on the all-zero
state. -/
theorem failing_startup_leaves_pwm_enabled_witness :
    ∃ s', main_startup 2 zeroState = .returned XST_FAILURE s' ∧
      s'.pmod_switch = [GPIO_0, PWM, GPIO_1, GPIO_2, GPIO_4, GPIO_5, GPIO_6, GPIO_7] ∧
      s'.pmod_switch[1]? = some PWM ∧
      s'.tmr.tlr0 = 99998 ∧ s'.tmr.tlr1 = 49998 ∧
      s'.tmr.tcsr0 = 0x296 ∧ s'.tmr.tcsr1 = 0x296 :=
  failing_startup_leaves_pwm_enabled 2 zeroState (by decide)

/-- The possible outcomes of one polling step, by pending command. -/
theorem main_poll_cases (s : State) :
    main_poll s = .ok s ∨
    (∃ p, p ≤ 7 ∧ main_poll s = .ok { s with
      pmod_switch := [GPIO_0, GPIO_1, GPIO_2, GPIO_3, GPIO_4, GPIO_5, GPIO_6, GPIO_7].set p PWM
      MAILBOX_CMD_ADDR := 0 }) ∨
    (s.MAILBOX_CMD_ADDR = CONFIG_IOP_SWITCH ∧ 8 ≤ s.MAILBOX_DATA 0 ∧
      main_poll s = .ok { s with
        pmod_switch := [GPIO_0, GPIO_1, GPIO_2, GPIO_3, GPIO_4, GPIO_5, GPIO_6, GPIO_7]
        MAILBOX_CMD_ADDR := 0 }) ∨
    (∃ t, main_poll s = .ok { s with tmr := t, MAILBOX_CMD_ADDR := 0 }) ∨
    (main_poll s = .ok { s with
      MAILBOX_DATA := Function.update s.MAILBOX_DATA 0 (s.hb3_if.tri HB3_CHANNEL)
      MAILBOX_CMD_ADDR := 0x9 }) ∨
    (∃ d, main_poll s = .ok { s with
      hb3_if := { s.hb3_if with data := d }
      MAILBOX_CMD_ADDR := 0 }) ∨
    main_poll s = .ok { s with MAILBOX_CMD_ADDR := 0 } := by
  by_cases h0 : s.MAILBOX_CMD_ADDR = 0
  · exact Or.inl (by simp only [main_poll, h0, if_true])
  rw [main_poll_of_ne_zero s h0]
  by_cases h1 : s.MAILBOX_CMD_ADDR = CONFIG_IOP_SWITCH
  · by_cases hp : s.MAILBOX_DATA 0 < 8
    · refine Or.inr (Or.inl ⟨s.MAILBOX_DATA 0, by omega, ?_⟩)
      rw [main_dispatch_CONFIG_IOP_SWITCH s h1 hp, iop_pins_after_store]
    · exact Or.inr (Or.inr (Or.inl
        ⟨h1, by omega, main_dispatch_CONFIG_IOP_SWITCH_out_of_range s h1 (by omega)⟩))
  by_cases h3 : s.MAILBOX_CMD_ADDR = GENERATE
  · exact Or.inr (Or.inr (Or.inr (Or.inl ⟨_, main_dispatch_GENERATE s h3⟩)))
  by_cases h5 : s.MAILBOX_CMD_ADDR = STOP
  · exact Or.inr (Or.inr (Or.inr (Or.inl ⟨_, main_dispatch_STOP s h5⟩)))
  by_cases h9 : s.MAILBOX_CMD_ADDR = READ
  · exact Or.inr (Or.inr (Or.inr (Or.inr (Or.inl (main_dispatch_READ s h9)))))
  by_cases h7 : s.MAILBOX_CMD_ADDR = WRITE
  · exact Or.inr (Or.inr (Or.inr (Or.inr (Or.inr (Or.inl
      ⟨_, main_dispatch_WRITE s h7⟩)))))
  · exact Or.inr (Or.inr (Or.inr (Or.inr (Or.inr (Or.inr
      (main_dispatch_default s h1 h3 h5 h7 h9))))))

/-- A polling step always yields a next state: the loop has no failing exit. -/
theorem main_poll_total (s : State) : ∃ s', main_poll s = .ok s' := by
  rcases main_poll_cases s with h | ⟨_, _, h⟩ | ⟨_, _, h⟩ | ⟨_, h⟩ | h | ⟨_, h⟩ | h <;>
    exact ⟨_, h⟩

/-- A polling step that does not find `CONFIG_IOP_SWITCH` pending with a pin index above
7 leaves the pin-switch assignment alone or replaces it by the default GPIO roles with
one pin in `0..7` set to `PWM`. -/
theorem main_poll_pmod_switch (s s' : State)
    (hpin : s.MAILBOX_CMD_ADDR = CONFIG_IOP_SWITCH → s.MAILBOX_DATA 0 ≤ 7)
    (h : main_poll s = .ok s') :
    s'.pmod_switch = s.pmod_switch ∨
    ∃ p, p ≤ 7 ∧ s'.pmod_switch
      = [GPIO_0, GPIO_1, GPIO_2, GPIO_3, GPIO_4, GPIO_5, GPIO_6, GPIO_7].set p PWM := by
  rcases main_poll_cases s with e | ⟨p, hp, e⟩ | ⟨hc, hp, _⟩ | ⟨_, e⟩ | e | ⟨_, e⟩ | e
  · rw [e] at h; left; injection h with h; subst h; rfl
  · rw [e] at h; right; injection h with h; subst h; exact ⟨p, hp, rfl⟩
  · have := hpin hc
    omega
  · rw [e] at h; left; injection h with h; subst h; rfl
  · rw [e] at h; left; injection h with h; subst h; rfl
  · rw [e] at h; left; injection h with h; subst h; rfl
  · rw [e] at h; left; injection h with h; subst h; rfl

/-- A polling step never writes the data-direction mask of the GPIO device. -/
theorem main_poll_tri (s s' : State) (h : main_poll s = .ok s') :
    s'.hb3_if.tri = s.hb3_if.tri := by
  rcases main_poll_cases s with e | ⟨p, hp, e⟩ | ⟨_, _, e⟩ | ⟨_, e⟩ | e | ⟨_, e⟩ | e <;>
    rw [e] at h
  · injection h with h; subst h; rfl
  · injection h with h; subst h; rfl
  · injection h with h; subst h; rfl
  · injection h with h; subst h; rfl
  · injection h with h; subst h; rfl
  · injection h with h; subst h; rfl
  · injection h with h; subst h; rfl

/-- A property of the state that host writes preserve, and that polling steps preserve
unless they find `CONFIG_IOP_SWITCH` pending with a pin index above 7, holds after every
run whose pin indices are in range; such a run yields a final state. -/
theorem run_invariant (P : State → Prop)
    (hcmd : ∀ s c, P s → P (host_write_cmd s c))
    (hdata : ∀ s i v, P s → P (host_write_data s i v))
    (hpoll : ∀ s s', P s →
      (s.MAILBOX_CMD_ADDR = CONFIG_IOP_SWITCH → s.MAILBOX_DATA 0 ≤ 7) →
      main_poll s = .ok s' → P s') :
    ∀ (events : List Event) (s : State), P s → pin_indices_ok s events = true →
      ∃ s', run s events = .ok s' ∧ P s' := by
  intro events
  induction events with
  | nil => intro s hP _; exact ⟨s, rfl, hP⟩
  | cons e es ih =>
    intro s hP hpins
    cases e with
    | host_cmd c =>
      simp only [pin_indices_ok, step, Bool.true_and] at hpins
      simpa only [run, step] using ih _ (hcmd s c hP) hpins
    | host_data i v =>
      simp only [pin_indices_ok, step, Bool.true_and] at hpins
      simpa only [run, step] using ih _ (hdata s i v hP) hpins
    | poll =>
      simp only [pin_indices_ok, step, Bool.and_eq_true, decide_eq_true_eq] at hpins
      obtain ⟨s1, h1⟩ := main_poll_total s
      have h2 := hpins.2
      rw [h1] at h2
      simpa only [run, step, h1] using ih s1 (hpoll s s1 hP hpins.1 h1) h2

/-- C12: after a successful startup and any sequence of host writes and polling steps in
which every dispatched CONFIG_IOP_SWITCH carries a pin index in `0..7`, the run does not
fault and the pin-switch assignment has eight pins of which exactly one is PWM and seven
are plain GPIO.  The empty sequence gives the startup assignment. -/
theorem one_pwm_pin_invariant (s0 : State) (events : List Event)
    (hpins : pin_indices_ok (main_startup XST_SUCCESS s0).state events = true) :
    (∃ s1, main_startup XST_SUCCESS s0 = .loop s1) ∧
    ∃ s', run (main_startup XST_SUCCESS s0).state events = .ok s' ∧
      s'.pmod_switch.length = 8 ∧
      s'.pmod_switch.count PWM = 1 ∧
      s'.pmod_switch.countP Role.isGPIO = 7 := by
  refine ⟨⟨_, main_startup_success s0⟩, ?_⟩
  refine run_invariant
    (fun s => s.pmod_switch.length = 8 ∧ s.pmod_switch.count PWM = 1 ∧
      s.pmod_switch.countP Role.isGPIO = 7)
    (fun _ _ h => h) (fun _ _ _ h => h) ?_ events _ ?_ hpins
  · intro s s' hP hpin h
    rcases main_poll_pmod_switch s s' hpin h with e | ⟨p, hp, e⟩
    · rw [e]; exact hP
    · rw [e]
      obtain ⟨h1, -, h4, h5⟩ := set_PWM_facts p hp
      exact ⟨h1, h4, h5⟩
  · rw [main_startup_success]
    exact ⟨rfl, rfl, rfl⟩

/-- C12 at a concrete input: startup on the all-zero state, then CONFIG_IOP_SWITCH(3),
GENERATE(1000, 25) and STOP, each followed by a polling step. -/
theorem one_pwm_pin_invariant_witness :
    (∃ s1, main_startup XST_SUCCESS zeroState = .loop s1) ∧
    ∃ s', run (main_startup XST_SUCCESS zeroState).state
        [.host_data 0 3, .host_cmd 1, .poll,
         .host_data 0 1000, .host_data 1 25, .host_cmd 3, .poll,
         .host_cmd 5, .poll] = .ok s' ∧
      s'.pmod_switch.length = 8 ∧
      s'.pmod_switch.count PWM = 1 ∧
      s'.pmod_switch.countP Role.isGPIO = 7 :=
  one_pwm_pin_invariant zeroState _ rfl

/-- C17: after a successful startup and any sequence of host writes and polling steps in
which every dispatched CONFIG_IOP_SWITCH carries a pin index in `0..7`, the run does not
fault and the data-direction mask of the GPIO channel is `0x1`; a READ issued then stores
1 into slot 0, also when a WRITE of an arbitrary value `v` was served just before. -/
theorem direction_mask_stays_one (s0 : State) (events : List Event)
    (hpins : pin_indices_ok (main_startup XST_SUCCESS s0).state events = true) :
    ∃ s', run (main_startup XST_SUCCESS s0).state events = .ok s' ∧
      XGpio_GetDataDirection s'.hb3_if HB3_CHANNEL = 0x1 ∧
      (∃ r, main_poll (host_write_cmd s' READ) = .ok r ∧ r.MAILBOX_DATA 0 = 1) ∧
      ∀ v : Nat, ∃ w r,
        main_poll (host_write_cmd (host_write_data s' 0 v) WRITE) = .ok w ∧
        w.hb3_if.data HB3_CHANNEL = v ∧
        main_poll (host_write_cmd w READ) = .ok r ∧ r.MAILBOX_DATA 0 = 1 := by
  obtain ⟨s', hrun, htri⟩ := run_invariant
    (fun s => s.hb3_if.tri HB3_CHANNEL = 1)
    (fun _ _ h => h) (fun _ _ _ h => h)
    (fun s s' hP _ h => by
      show s'.hb3_if.tri HB3_CHANNEL = 1
      rw [main_poll_tri s s' h]; exact hP)
    events (main_startup XST_SUCCESS s0).state
    (by rw [main_startup_success]; simp [MainResult.state]) hpins
  refine ⟨s', hrun, htri, ?_, ?_⟩
  · refine ⟨_, (main_poll_of_ne_zero _ (by simp [host_write_cmd, READ])).trans
      (main_dispatch_READ _ rfl), ?_⟩
    simpa [host_write_cmd] using htri
  · intro v
    refine ⟨_, _, (main_poll_of_ne_zero _ (by simp [host_write_cmd, WRITE])).trans
      (main_dispatch_WRITE _ rfl), ?_,
      (main_poll_of_ne_zero _ (by simp [host_write_cmd, READ])).trans
      (main_dispatch_READ _ rfl), ?_⟩
    · simp [host_write_cmd, host_write_data]
    · simpa [host_write_cmd, host_write_data] using htri

/-- C17 at a concrete input: startup on the all-zero state, then WRITE(6) and
CONFIG_IOP_SWITCH(0), each followed by a polling step. -/
theorem direction_mask_stays_one_witness :
    ∃ s', run (main_startup XST_SUCCESS zeroState).state
        [.host_data 0 6, .host_cmd 7, .poll, .host_data 0 0, .host_cmd 1, .poll]
          = .ok s' ∧
      XGpio_GetDataDirection s'.hb3_if HB3_CHANNEL = 0x1 ∧
      (∃ r, main_poll (host_write_cmd s' READ) = .ok r ∧ r.MAILBOX_DATA 0 = 1) ∧
      ∀ v : Nat, ∃ w r,
        main_poll (host_write_cmd (host_write_data s' 0 v) WRITE) = .ok w ∧
        w.hb3_if.data HB3_CHANNEL = v ∧
        main_poll (host_write_cmd w READ) = .ok r ∧ r.MAILBOX_DATA 0 = 1 :=
  direction_mask_stays_one zeroState _ rfl

/-- Every command other than READ is dispatched to a state with command word 0 and the
parameter slots as before, whatever slot 0 holds. -/
theorem main_dispatch_not_READ (s : State) (h9 : s.MAILBOX_CMD_ADDR ≠ READ) :
    ∃ s', main_dispatch s = .ok s' ∧ s'.MAILBOX_CMD_ADDR = 0 ∧
      s'.MAILBOX_DATA = s.MAILBOX_DATA := by
  by_cases h1 : s.MAILBOX_CMD_ADDR = CONFIG_IOP_SWITCH
  · by_cases hlt : s.MAILBOX_DATA 0 < 8
    · exact ⟨_, main_dispatch_CONFIG_IOP_SWITCH s h1 hlt, rfl, rfl⟩
    · exact ⟨_, main_dispatch_CONFIG_IOP_SWITCH_out_of_range s h1 (by omega), rfl, rfl⟩
  by_cases h3 : s.MAILBOX_CMD_ADDR = GENERATE
  · exact ⟨_, main_dispatch_GENERATE s h3, rfl, rfl⟩
  by_cases h5 : s.MAILBOX_CMD_ADDR = STOP
  · exact ⟨_, main_dispatch_STOP s h5, rfl, rfl⟩
  by_cases h7 : s.MAILBOX_CMD_ADDR = WRITE
  · exact ⟨_, main_dispatch_WRITE s h7, rfl, rfl⟩
  · exact ⟨_, main_dispatch_default s h1 h3 h5 h7 h9, rfl, rfl⟩

/-- C18: each command writes only its own peripheral.  CONFIG_IOP_SWITCH with a pin index
in `0..7` leaves the timers and the GPIO device unchanged; GENERATE leaves the pin switch
and the GPIO device unchanged; STOP leaves both load registers, the pin switch and the
GPIO device unchanged; WRITE leaves the timers, the pin switch and the direction mask
unchanged; READ leaves the timers, the pin switch and the GPIO device unchanged; and a
command other than READ leaves every parameter slot unchanged. -/
theorem commands_write_own_peripheral :
    (∀ s : State, s.MAILBOX_CMD_ADDR = CONFIG_IOP_SWITCH → s.MAILBOX_DATA 0 ≤ 7 →
      ∃ s', main_dispatch s = .ok s' ∧ s'.tmr = s.tmr ∧
        s'.hb3_if.tri = s.hb3_if.tri ∧ s'.hb3_if.data = s.hb3_if.data) ∧
    (∀ s : State, s.MAILBOX_CMD_ADDR = GENERATE →
      ∃ s', main_dispatch s = .ok s' ∧ s'.pmod_switch = s.pmod_switch ∧
        s'.hb3_if.tri = s.hb3_if.tri ∧ s'.hb3_if.data = s.hb3_if.data) ∧
    (∀ s : State, s.MAILBOX_CMD_ADDR = STOP →
      ∃ s', main_dispatch s = .ok s' ∧
        s'.tmr.tlr0 = s.tmr.tlr0 ∧ s'.tmr.tlr1 = s.tmr.tlr1 ∧
        s'.pmod_switch = s.pmod_switch ∧
        s'.hb3_if.tri = s.hb3_if.tri ∧ s'.hb3_if.data = s.hb3_if.data) ∧
    (∀ s : State, s.MAILBOX_CMD_ADDR = WRITE →
      ∃ s', main_dispatch s = .ok s' ∧ s'.tmr = s.tmr ∧
        s'.pmod_switch = s.pmod_switch ∧ s'.hb3_if.tri = s.hb3_if.tri) ∧
    (∀ s : State, s.MAILBOX_CMD_ADDR = READ →
      ∃ s', main_dispatch s = .ok s' ∧ s'.tmr = s.tmr ∧
        s'.pmod_switch = s.pmod_switch ∧
        s'.hb3_if.tri = s.hb3_if.tri ∧ s'.hb3_if.data = s.hb3_if.data) ∧
    (∀ s : State, s.MAILBOX_CMD_ADDR ≠ READ →
      (s.MAILBOX_CMD_ADDR = CONFIG_IOP_SWITCH → s.MAILBOX_DATA 0 ≤ 7) →
      ∃ s', main_dispatch s = .ok s' ∧ s'.MAILBOX_DATA = s.MAILBOX_DATA) := by
  refine ⟨?_, ?_, ?_, ?_, ?_, ?_⟩
  · intro s hcmd hp
    exact ⟨_, main_dispatch_CONFIG_IOP_SWITCH s hcmd (by omega), rfl, rfl, rfl⟩
  · intro s hcmd
    exact ⟨_, main_dispatch_GENERATE s hcmd, rfl, rfl, rfl⟩
  · intro s hcmd
    exact ⟨_, main_dispatch_STOP s hcmd, rfl, rfl, rfl, rfl, rfl⟩
  · intro s hcmd
    exact ⟨_, main_dispatch_WRITE s hcmd, rfl, rfl, rfl⟩
  · intro s hcmd
    exact ⟨_, main_dispatch_READ s hcmd, rfl, rfl, rfl, rfl⟩
  · intro s h9 _
    obtain ⟨s', hs', -, hd⟩ := main_dispatch_not_READ s h9
    exact ⟨s', hs', hd⟩

/-- C18 at concrete inputs: CONFIG_IOP_SWITCH with pin index 3 and WRITE of the value 6 on
a state whose timers run with the startup loads. -/
theorem commands_write_own_peripheral_witness :
    (∃ s', main_dispatch
        { zeroState with
          MAILBOX_CMD_ADDR := 1
          MAILBOX_DATA := fun _ => 3
          tmr := { tcsr0 := 0x296, tlr0 := 99998, tcsr1 := 0x296, tlr1 := 49998 } }
          = .ok s' ∧
      s'.tmr = { tcsr0 := 0x296, tlr0 := 99998, tcsr1 := 0x296, tlr1 := 49998 } ∧
      s'.hb3_if.tri = zeroState.hb3_if.tri ∧ s'.hb3_if.data = zeroState.hb3_if.data) ∧
    (∃ s', main_dispatch
        { zeroState with
          MAILBOX_CMD_ADDR := 7
          MAILBOX_DATA := fun _ => 6
          tmr := { tcsr0 := 0x296, tlr0 := 99998, tcsr1 := 0x296, tlr1 := 49998 } }
          = .ok s' ∧
      s'.MAILBOX_DATA = fun _ => 6) :=
  ⟨commands_write_own_peripheral.1 _ rfl (by decide),
    commands_write_own_peripheral.2.2.2.2.2 _ (by decide) (fun h => absurd h (by decide))⟩

end PmodHB3
